import Mathlib

/-!
Verification of the conversation-compaction pipeline in `handoff.py`
(claude-chat-handoff).

Strings are modelled as `List Char` (one element per Unicode code point,
matching Python string indexing and `len`).  Python `None`-able record
fields become `Option`, fallible functions return `Except`, and the single
external call (the summarization HTTP request) is modelled by an explicit
`ApiOutcome` oracle passed to the functions that perform it.  The
interactive shell, filesystem and clock are outside the modelled core; the
generation timestamp is passed in as an explicit `now` argument.

Character-class notes: the regex classes `\s` and `\w` and Python
`str.strip` are modelled on their documented Unicode behaviour restricted
to the character sets that can influence the modelled patterns (ASCII plus
the standard Unicode whitespace code points; `\w` is modelled by its ASCII
core, which covers every literal the patterns can match against).
-/

namespace Handoff

/-- Characters matched by the Python regex class `\s` and stripped by
`str.strip()` (ASCII whitespace plus the standard Unicode whitespace code
points). -/
def isPySpace (c : Char) : Bool :=
  let n := c.toNat
  n = 32 || n = 9 || n = 10 || n = 11 || n = 12 || n = 13 ||
  (28 ≤ n && n ≤ 31) || n = 0x85 || n = 0xa0 || n = 0x1680 ||
  (0x2000 ≤ n && n ≤ 0x200a) || n = 0x2028 || n = 0x2029 ||
  n = 0x202f || n = 0x205f || n = 0x3000

/-- Case folding used by `re.IGNORECASE` for the characters that occur in
the literal noise and decision patterns (ASCII letters and the single
accented letter appearing in a pattern). -/
def lowerChar (c : Char) : Char :=
  if c.isUpper then c.toLower else if c = 'É' then 'é' else c

/-- Python `str.strip()`: drop leading and trailing whitespace. -/
def pyStrip (s : List Char) : List Char :=
  ((s.dropWhile isPySpace).reverse.dropWhile isPySpace).reverse

/-- Python substring test `needle in hay`. -/
def isSub (needle : List Char) : List Char → Bool
  | [] => needle.isEmpty
  | c :: t => needle.isPrefixOf (c :: t) || isSub needle t

/-- Case-insensitive literal-prefix test (both sides folded through
`lowerChar`), used for the `re.IGNORECASE` literal patterns. -/
def ciStarts : List Char → List Char → Bool
  | [], _ => true
  | _ :: _, [] => false
  | a :: as, b :: bs => (lowerChar a == lowerChar b) && ciStarts as bs

/-- Case-insensitive literal-suffix test, for the pattern anchored with
a trailing regex anchor. -/
def ciEnds (lit l : List Char) : Bool :=
  ciStarts lit.reverse l.reverse

/-- Python `'\n'`-separated split, `str.split('\n')` (auxiliary). -/
def splitNLAux : List Char → List Char → List (List Char)
  | [], acc => [acc.reverse]
  | c :: cs, acc =>
    if c = '\n' then acc.reverse :: splitNLAux cs [] else splitNLAux cs (c :: acc)

/-- Python `content.split('\n')`. -/
def pySplitNL (s : List Char) : List (List Char) := splitNLAux s []

/-- Python `'\n'.join(lines)`. -/
def pyJoinNL : List (List Char) → List Char
  | [] => []
  | [l] => l
  | l :: l' :: ls => l ++ '\n' :: pyJoinNL (l' :: ls)

/-- Regex `^✶\s*LIT` (case-insensitive): a `✶` at the start of the line,
whitespace, then the literal.  The literal never starts with a whitespace
character, so greedy `\s*` matching reduces to dropping the maximal
whitespace run. -/
def starStatus (lit : List Char) : List Char → Bool
  | c :: rest => (c == '✶') && ciStarts lit (rest.dropWhile isPySpace)
  | [] => false

/-- Regex `^\s*⎿\s*BOX`: leading whitespace, the status glyph, whitespace,
then the given checkbox character. -/
def ccBox (box : Char) (l : List Char) : Bool :=
  match l.dropWhile isPySpace with
  | c :: rest =>
    (c == '⎿') &&
      (match rest.dropWhile isPySpace with
       | d :: _ => d == box
       | [] => false)
  | [] => false

/-- One line tested against the ten entries of `NOISE_PATTERNS`
(`re.search` with `re.IGNORECASE` on each pattern, in order). -/
def lineIsNoise (l : List Char) : Bool :=
  starStatus ("compacting conversation".toList) l ||
  starStatus ("churned for".toList) l ||
  starStatus ("sautéed for".toList) l ||
  starStatus ("brewed for".toList) l ||
  starStatus ("worked for".toList) l ||
  starStatus ("zigzagging".toList) l ||
  ccBox '☐' l || ccBox '☒' l ||
  ciStarts ("ctrl+c to interrupt".toList) l ||
  ciEnds ("thinking)".toList) l

/-- `filter_noise` from `handoff.py`: split the content on newlines, drop
every line matching a noise pattern, rejoin with newlines. -/
def filter_noise (content : List Char) : List Char :=
  pyJoinNL ((pySplitNL content).filter (fun l => !lineIsNoise l))

/-- The `noise_indicators` literals of `is_noise_message`. -/
def noise_indicators : List (List Char) :=
  [("Compacting conversation".toList), ("ctrl+c to interrupt".toList),
   ("⎿".toList), ("✶".toList)]

/-- `is_noise_message` from `handoff.py`: a stripped message shorter than
100 characters containing any indicator substring is entirely noise. -/
def is_noise_message (content : List Char) : Bool :=
  let stripped := pyStrip content
  if stripped.length < 100 then
    noise_indicators.any (fun ind => isSub ind stripped)
  else false

/-- One fragment of a JSON message `content` array: a dict (whose `text`
entry may be absent, modelled by `none`, or present), a plain string, or a
fragment of another kind (skipped by the source). -/
inductive ContentItem where
  | dict (text : Option (List Char))
  | str (s : List Char)
  | other
deriving DecidableEq

/-- A raw export record as read from JSON: every field the source touches,
each optional exactly where the source uses `.get`. -/
structure RawMsg where
  sender : Option (List Char)
  content : Option (List ContentItem)
  text : Option (List Char)
  created_at : Option (List Char)
deriving DecidableEq

/-- The top-level export object. -/
structure ExportData where
  chat_messages : Option (List RawMsg)
  messages : Option (List RawMsg)
  name : Option (List Char)
  summary : Option (List Char)
  created_at : Option (List Char)
  updated_at : Option (List Char)
deriving DecidableEq

/-- A normalized message (`{'sender': ..., 'content': ..., 'timestamp': ...}`). -/
structure Msg where
  sender : List Char
  content : List Char
  timestamp : List Char
deriving DecidableEq

/-- The dict returned by `parse_json_export`. -/
structure ParsedData where
  name : List Char
  summary : List Char
  created : List Char
  updated : List Char
  messages : List Msg
deriving DecidableEq

/-- `extract_content_from_json` from `handoff.py`: concatenate the text of
all fragments joined by newlines; fall back to the `text` field when the
`content` field is absent or empty (Python falsiness). -/
def extract_content_from_json (msg : RawMsg) : List Char :=
  match msg.content with
  | none => msg.text.getD []
  | some [] => msg.text.getD []
  | some items =>
    pyJoinNL (items.filterMap (fun item =>
      match item with
      | .dict t => let tx := t.getD []; if tx = [] then none else some tx
      | .str s => some s
      | .other => none))

/-- The per-record body of the `parse_json_export` loop: skip empty,
filter noise, skip empty-after-filter, skip whole-message noise, otherwise
build the normalized message. -/
def processMsg (msg : RawMsg) : Option Msg :=
  let content := extract_content_from_json msg
  if pyStrip content = [] then none
  else
    let content := filter_noise content
    if pyStrip content = [] then none
    else if is_noise_message content then none
    else some
      { sender := msg.sender.getD ("unknown".toList)
        content := content
        timestamp := ((msg.created_at.getD []).take 19).map
          (fun c => if c = 'T' then ' ' else c) }

/-- The exact `ValueError` message raised on a malformed export. -/
def fmtErrMsg : List Char :=
  ("Invalid JSON format: missing \x27chat_messages\x27 or \x27messages\x27 field".toList)

/-- `parse_json_export` from `handoff.py` (the file read and JSON decode
happen before the modelled core; the decoded object is the input). -/
def parse_json_export (data : ExportData) : Except (List Char) ParsedData :=
  if data.chat_messages = none ∧ data.messages = none then
    .error fmtErrMsg
  else
    let raw_messages := data.chat_messages.getD (data.messages.getD [])
    .ok
      { name := data.name.getD ("Unknown Chat".toList)
        summary := data.summary.getD []
        created := (data.created_at.getD []).take 10
        updated := (data.updated_at.getD []).take 10
        messages := raw_messages.filterMap processMsg }

/-- `estimate_tokens`: integer division of a character count by 4 (the
string overload of the source applies the same division to `len(text)`). -/
def estimate_tokens (n : Nat) : Nat := n / 4

/-- Python `str(n)` for a natural number. -/
def natStr (n : Nat) : List Char := Nat.toDigits 10 n

/-- Group a reversed digit list in threes, inserting a comma after each
complete group (auxiliary for the `:,` format specifier). -/
def commaGroupRev : List Char → List Char
  | a :: b :: c :: d :: rest => a :: b :: c :: ',' :: commaGroupRev (d :: rest)
  | ds => ds

/-- Python format `f"{n:,}"`: decimal digits with thousands separators. -/
def commaFmt (n : Nat) : List Char :=
  (commaGroupRev (Nat.toDigits 10 n).reverse).reverse

/-- ASCII core of the regex class `\w` (covers every character the path
patterns can put next to it in the modelled inputs). -/
def wordChar (c : Char) : Bool := c.isAlpha || c.isDigit || c = '_'

/-- Regex class `[\w\-./]` of the Unix/project path patterns. -/
def pathChar (c : Char) : Bool := wordChar c || c = '-' || c = '.' || c = '/'

/-- Regex class `[^\s'"<>|]` of the Windows path pattern. -/
def winPathChar (c : Char) : Bool :=
  !(isPySpace c || c = '\x27' || c = '"' || c = '<' || c = '>' || c = '|')

/-- Match length of the Windows-path pattern `[A-Za-z]:\\[^\s'"<>|]+` at
the head of the string (greedy, nothing to backtrack into). -/
def matchWin : List Char → Option Nat
  | c0 :: ':' :: '\\' :: rest =>
    let run := (rest.takeWhile winPathChar).length
    if c0.isAlpha && decide (1 ≤ run) then some (3 + run) else none
  | _ => none

/-- Match length of a project-directory pattern `LIT[\w\-./]+` (literal
directory marker, then a nonempty greedy run). -/
def matchDirPat (lit : List Char) (s : List Char) : Option Nat :=
  if lit.isPrefixOf s then
    let run := ((s.drop lit.length).takeWhile pathChar).length
    if 1 ≤ run then some (lit.length + run) else none
  else none

/-- Backtracking point of `/[\w\-./]+\.\w+`: the largest index `j` inside
the greedy `[\w\-./]+` run with a dot at `j` and a word character right
after it (regex backtracking tries the longest first-group first). -/
def dotSplit (rest : List Char) (a : Nat) : Option Nat :=
  (((List.range a).filter (fun j =>
      decide (1 ≤ j) && (rest.get? j == some '.') &&
      ((rest.get? (j + 1)).map wordChar == some true)))).max?

/-- Match length of the Unix-path pattern `/[\w\-./]+\.\w+` at the head of
the string. -/
def matchUnix : List Char → Option Nat
  | '/' :: rest =>
    let a := (rest.takeWhile pathChar).length
    match dotSplit rest a with
    | some j => some (1 + j + 1 + ((rest.drop (j + 1)).takeWhile wordChar).length)
    | none => none
  | _ => none

/-- `re.findall` over the string for one pattern given by a head-match
length function: scan left to right, on a match emit it and resume after
its end, otherwise advance one character (auxiliary, fuelled by the input
length; every emitted match is nonempty so the fuel is never exhausted). -/
def findallAux (matchLen : List Char → Option Nat) : Nat → List Char → List (List Char)
  | 0, _ => []
  | _ + 1, [] => []
  | fuel + 1, s@(_ :: cs) =>
    match matchLen s with
    | some (n + 1) => s.take (n + 1) :: findallAux matchLen fuel (s.drop (n + 1))
    | _ => findallAux matchLen fuel cs

/-- `re.findall(pattern, text)` for one pattern. -/
def findall (matchLen : List Char → Option Nat) (s : List Char) : List (List Char) :=
  findallAux matchLen s.length s

/-- The eight entries of the `patterns` list of `extract_file_paths`, in
source order. -/
def path_matchers : List (List Char → Option Nat) :=
  [matchWin, matchUnix,
   matchDirPat ("src/".toList), matchDirPat ("server/".toList),
   matchDirPat ("docs/".toList), matchDirPat ("lib/".toList),
   matchDirPat ("app/".toList), matchDirPat ("components/".toList)]

/-- Python string comparison (lexicographic on code points), as a Bool. -/
def lexLeB : List Char → List Char → Bool
  | [], _ => true
  | _ :: _, [] => false
  | a :: as, b :: bs =>
    if a.toNat < b.toNat then true
    else if b.toNat < a.toNat then false
    else lexLeB as bs

/-- The ordering used by Python `sorted` on strings, as a relation. -/
def lexle (a b : List Char) : Prop := lexLeB a b = true

instance : DecidableRel lexle := fun a b =>
  inferInstanceAs (Decidable (lexLeB a b = true))

instance : IsTotal (List Char) lexle where
  total a b := by
    induction a generalizing b with
    | nil => exact Or.inl rfl
    | cons x xs ih =>
      cases b with
      | nil => exact Or.inr rfl
      | cons y ys =>
        simp only [lexle, lexLeB]
        rcases Nat.lt_trichotomy x.toNat y.toNat with h | h | h
        · left; simp [h]
        · have hxy : ¬ x.toNat < y.toNat := by omega
          have hyx : ¬ y.toNat < x.toNat := by omega
          simp [hxy, hyx]
          exact ih ys
        · right; simp [h]

instance : IsTrans (List Char) lexle where
  trans a b c hab hbc := by
    induction a generalizing b c with
    | nil => exact rfl
    | cons x xs ih =>
      cases b with
      | nil => simp [lexle, lexLeB] at hab
      | cons y ys =>
        cases c with
        | nil => simp [lexle, lexLeB] at hbc
        | cons z zs =>
          simp only [lexle, lexLeB] at hab hbc ⊢
          rcases Nat.lt_trichotomy x.toNat y.toNat with h1 | h1 | h1
          · rcases Nat.lt_trichotomy y.toNat z.toNat with h2 | h2 | h2
            · simp [Nat.lt_trans h1 h2]
            · have hxz : x.toNat < z.toNat := by omega
              simp [hxz]
            · simp [Nat.lt_asymm h2, h2] at hbc
          · have hn1 : ¬ x.toNat < y.toNat := by omega
            have hn2 : ¬ y.toNat < x.toNat := by omega
            simp [hn1, hn2] at hab
            rcases Nat.lt_trichotomy y.toNat z.toNat with h2 | h2 | h2
            · have hxz : x.toNat < z.toNat := by omega
              simp [hxz]
            · have hn3 : ¬ y.toNat < z.toNat := by omega
              have hn4 : ¬ z.toNat < y.toNat := by omega
              have hn5 : ¬ x.toNat < z.toNat := by omega
              have hn6 : ¬ z.toNat < x.toNat := by omega
              simp [hn3, hn4] at hbc
              simp [hn5, hn6]
              exact ih ys zs hab hbc
            · simp [Nat.lt_asymm h2, h2] at hbc
          · simp [Nat.lt_asymm h1, h1] at hab

/-- `extract_file_paths` from `handoff.py`: union the matches of all
patterns into a set (modelled as a duplicate-free list; the final sort
makes the set iteration order immaterial), drop entries with length at
most 5 or starting with a double slash, and sort lexically. -/
def extract_file_paths (text : List Char) : List (List Char) :=
  let allMatches := path_matchers.foldl (fun acc m => acc ++ findall m text) []
  let paths := allMatches.dedup
  let filtered := paths.filter
    (fun p => decide (5 < p.length) && !(("//".toList).isPrefixOf p))
  List.insertionSort lexle filtered

/-- Expansion of the `decision_markers` regex list of `extract_decisions`
under `re.IGNORECASE` into literal substrings (the first two patterns are
alternations of literals; the rest are plain literals). -/
def decision_marker_lits : List (List Char) :=
  [("we decided".toList), ("we chose".toList), ("we will".toList),
   ("we should".toList), ("we need to".toList),
   ("i decided".toList), ("i chose".toList), ("i will".toList),
   ("i should".toList), ("i need to".toList),
   ("the pattern".toList), ("our pattern".toList),
   ("convention".toList), ("architecture".toList), ("migration".toList),
   ("important".toList), ("note:".toList), ("todo:".toList)]

/-- A line matches at least one decision-marker pattern. -/
def matchesDecisionMarker (l : List Char) : Bool :=
  decision_marker_lits.any (fun lit => isSub lit (l.map lowerChar))

/-- The loop body of `extract_decisions`: strip the line and append it
when its length is strictly between 20 and 500 and it matches a marker. -/
def decisionAccum (acc : List (List Char)) (line : List Char) : List (List Char) :=
  let line := pyStrip line
  if decide (20 < line.length) && decide (line.length < 500) &&
      matchesDecisionMarker line then acc ++ [line] else acc

/-- `extract_decisions` from `handoff.py`: collect stripped lines whose
length is strictly between 20 and 500 and which match a marker, in
first-occurrence order, then keep the first 20. -/
def extract_decisions (text : List Char) : List (List Char) :=
  let lines := pySplitNL text
  let decisions := lines.foldl decisionAccum []
  decisions.take 20

/-- The sender label picked for one rendered message (shared expression of
the rendering loops of both strategies). -/
def sender_label (m : Msg) : List Char :=
  if m.sender = ("human".toList) then ("**Human:**".toList)
  else ("**Assistant:**".toList)

/-- The `###` heading line of one rendered message. -/
def msg_header (m : Msg) : List Char :=
  ("### ".toList) ++ sender_label m ++ (" (".toList) ++ m.timestamp ++ (")".toList)

/-- The truncation marker appended when a rendered message exceeds 8000
characters, carrying the original length. -/
def truncMarker (n : Nat) : List Char :=
  ("\n\n*[Truncated - original was ".toList) ++ commaFmt n ++ (" chars]*".toList)

/-- The content of one rendered verbatim message: truncated to 8000
characters with the marker when longer, otherwise unchanged. -/
def verbatimContent (content : List Char) : List Char :=
  if 8000 < content.length then content.take 8000 ++ truncMarker content.length
  else content

/-- The document lines contributed by one verbatim message (the loop body
shared verbatim by `generate_handoff_standard` and
`generate_handoff_smart`). -/
def render_verbatim_msg (m : Msg) : List (List Char) :=
  [msg_header m, [], verbatimContent m.content, []]

/-- The fixed resumption-instructions footer (identical text in both
strategies). -/
def footer_lines : List (List Char) :=
  [("---".toList), [],
   ("## Resumption Instructions".toList), [],
   ("1. Share this handoff document with Claude in a new chat".toList),
   ("2. Reference any relevant project documentation".toList),
   ("3. Specify which aspect of the work to continue".toList), []]

/-- Python slice `xs[-n:]` for a nonnegative count (with `n = 0` the slice
is `xs[0:]`, the whole list). -/
def pyTakeLast (n : Nat) (xs : List Msg) : List Msg :=
  if n = 0 then xs else xs.drop (xs.length - n)

/-- Python slice `xs[:-n]` for a nonnegative count (with `n = 0` the slice
is `xs[:0]`, empty). -/
def pyDropLast (n : Nat) (xs : List Msg) : List Msg :=
  if n = 0 then [] else xs.take (xs.length - n)

/-- The verbatim window of the standard strategy:
`messages[-VERBATIM_MESSAGE_COUNT:]` with the fixed module constant 30. -/
def standard_recent (messages : List Msg) : List Msg := pyTakeLast 30 messages

/-- `generate_handoff_standard` from `handoff.py`, as the list of output
lines; `now` is the formatted `datetime.now()` string. -/
def standard_lines (data : ParsedData) (now : List Char) : List (List Char) :=
  let messages := data.messages
  let all_text := pyJoinNL (messages.map (fun m => m.content))
  let file_paths := extract_file_paths all_text
  let decisions := extract_decisions all_text
  ([("# Handoff: ".toList) ++ data.name, [],
    ("**Generated:** ".toList) ++ now,
    ("**Mode:** Standard (algorithmic - offline)".toList),
    ("**Original Chat Period:** ".toList) ++ data.created ++ (" to ".toList) ++ data.updated,
    ("**Message Count:** ".toList) ++ natStr messages.length,
    ("**Estimated Tokens:** ~".toList) ++ commaFmt (estimate_tokens all_text.length), []])
  ++ (if data.summary ≠ [] then
        [("## Quick Context (Claude.ai Auto-generated)".toList), [], data.summary, []]
      else [])
  ++ (if file_paths ≠ [] then
        ("## Files Referenced".toList) :: [] ::
          ((file_paths.take 30).map (fun p => ("- `".toList) ++ p ++ ("`".toList)) ++ [[]])
      else [])
  ++ (if decisions ≠ [] then
        ("## Key Decisions & Patterns".toList) :: [] ::
          (decisions.map (fun d => ("- ".toList) ++ pyStrip d) ++ [[]])
      else [])
  ++ [("## Recent Conversation (Verbatim)".toList), [],
      ("*Last ".toList) ++ natStr (min 30 messages.length) ++ (" messages preserved:*".toList), []]
  ++ ((standard_recent messages).map render_verbatim_msg).flatten
  ++ footer_lines

/-- `generate_handoff_standard`: the final `'\n'.join(lines)`. -/
def generate_handoff_standard (data : ParsedData) (now : List Char) : List Char :=
  pyJoinNL (standard_lines data now)

/-- The `smart_mode` sub-object of `config.json`. -/
structure SmartModeCfg where
  verbatim_recent_messages : Option Nat
  model : Option (List Char)
  max_output_tokens : Option Nat
deriving DecidableEq

/-- The loaded configuration (only the fields the modelled core reads). -/
structure Config where
  smart_mode : Option SmartModeCfg
  anthropic_api_key : Option (List Char)
deriving DecidableEq

/-- `config.get('smart_mode', {}).get('verbatim_recent_messages',
VERBATIM_MESSAGE_COUNT)`, the configured verbatim count with default 30. -/
def cfgVerbatim (cfg : Config) : Nat :=
  match cfg.smart_mode with
  | some sm => sm.verbatim_recent_messages.getD 30
  | none => 30

/-- Outcome of the external summarization HTTP call, as an oracle: a
well-formed success body, an HTTP error status with body, or any other
failure (timeout, connection error, malformed response shape), matching
the three paths of `call_claude_api`. -/
inductive ApiOutcome where
  | success (text : List Char)
  | httpError (code : Nat) (body : List Char)
  | failure (err : List Char)
deriving DecidableEq

/-- `call_claude_api` from `handoff.py`: the transport is the oracle; the
two exception paths re-raise with the messages built in the source. -/
def call_claude_api (outcome : ApiOutcome) (prompt : List Char) :
    Except (List Char) (List Char) :=
  match prompt, outcome with
  | _, .success t => .ok t
  | _, .httpError code body =>
    .error (("API Error ".toList) ++ natStr code ++ (": ".toList) ++ body)
  | _, .failure e => .error (("API call failed: ".toList) ++ e)

/-- Python `'\n\n'.join(parts)`. -/
def joinBlank : List (List Char) → List Char
  | [] => []
  | [p] => p
  | p :: p' :: ps => p ++ '\n' :: '\n' :: joinBlank (p' :: ps)

/-- The fixed text of the summarization prompt before the conversation. -/
def smartPromptPre : List Char :=
  ("You are analyzing a development conversation to create a handoff document for resuming work in a new chat session.\n\nCONVERSATION TO ANALYZE:\n".toList)

/-- The fixed text of the summarization prompt after the conversation
(section outline and instructions). -/
def smartPromptPost : List Char :=
  ("\n\nCreate a structured summary with these sections:\n\n## Session Overview\nBrief 2-3 sentence summary of what was accomplished.\n\n## Key Accomplishments\nBullet list of concrete things completed (files created, features implemented, bugs fixed).\n\n## Architecture Decisions\nImportant technical decisions made, patterns established, conventions adopted.\n\n## Files Modified\nList the key files that were created or modified (just paths, no descriptions).\n\n## Current State\nWhere things stand at the end of this portion of the conversation - what works, what\x27s in progress.\n\n## Known Issues / TODOs\nAny bugs, incomplete items, or next steps mentioned.\n\n## Critical Context for Continuation\nAny specific details (variable names, patterns, gotchas) that would be essential for continuing this work.\n\nBe concise but complete. Focus on actionable information for resuming work.".toList)

/-- `generate_smart_summary` from `handoff.py`: serialize the older turns
as `[role]: text` pairs (each text truncated to 5000 characters), cap the
payload at 350000 characters with a truncation marker, and issue the
summarization call; any failure propagates. -/
def generate_smart_summary (messages : List Msg) (outcome : ApiOutcome) :
    Except (List Char) (List Char) :=
  let conv_parts := messages.map (fun m =>
    ("[".toList) ++
      (if m.sender = ("human".toList) then ("Human".toList) else ("Assistant".toList)) ++
      ("]: ".toList) ++ m.content.take 5000)
  let conversation_text := joinBlank conv_parts
  let conversation_text :=
    if 350000 < conversation_text.length then
      conversation_text.take 350000 ++ ("\n\n[...truncated due to size...]".toList)
    else conversation_text
  call_claude_api outcome (smartPromptPre ++ conversation_text ++ smartPromptPost)

/-- The older prefix of the smart split:
`messages[:-verbatim_count] if len(messages) > verbatim_count else []`. -/
def smart_older (messages : List Msg) (verbatim_count : Nat) : List Msg :=
  if messages.length > verbatim_count then pyDropLast verbatim_count messages
  else []

/-- The recent suffix of the smart split: `messages[-verbatim_count:]`. -/
def smart_recent (messages : List Msg) (verbatim_count : Nat) : List Msg :=
  pyTakeLast verbatim_count messages

/-- `generate_handoff_smart` from `handoff.py`, as the list of output
lines; a summarization failure propagates and no lines are produced. -/
def smart_lines (data : ParsedData) (cfg : Config) (outcome : ApiOutcome)
    (now : List Char) : Except (List Char) (List (List Char)) :=
  let messages := data.messages
  let verbatim_count := cfgVerbatim cfg
  let total_chars := (messages.map (fun m => m.content.length)).sum
  let older_messages := smart_older messages verbatim_count
  let recent_messages := smart_recent messages verbatim_count
  match
    (if older_messages.isEmpty then Except.ok ([] : List Char)
     else generate_smart_summary older_messages outcome) with
  | .error e => .error e
  | .ok ai_summary =>
    .ok
      (([("# Handoff: ".toList) ++ data.name, [],
         ("**Generated:** ".toList) ++ now,
         ("**Mode:** Smart (AI-summarized)".toList),
         ("**Original Chat Period:** ".toList) ++ data.created ++ (" to ".toList) ++ data.updated,
         ("**Message Count:** ".toList) ++ natStr messages.length ++ (" (".toList) ++
           natStr older_messages.length ++ (" summarized, ".toList) ++
           natStr recent_messages.length ++ (" verbatim)".toList),
         ("**Original Size:** ~".toList) ++ commaFmt (estimate_tokens total_chars) ++ (" tokens".toList), []])
       ++ (if data.summary ≠ [] then
             [("## Quick Context (Claude.ai Auto-generated)".toList), [], data.summary, []]
           else [])
       ++ (if ai_summary ≠ [] then
             [("## AI-Summarized Earlier Content".toList), [], ai_summary, []]
           else [])
       ++ [("## Recent Conversation (Verbatim)".toList), [],
           ("*Last ".toList) ++ natStr recent_messages.length ++
             (" messages preserved for immediate context:*".toList), []]
       ++ (recent_messages.map render_verbatim_msg).flatten
       ++ footer_lines)

/-- `generate_handoff_smart`: the final `'\n'.join(lines)` on success. -/
def generate_handoff_smart (data : ParsedData) (cfg : Config)
    (outcome : ApiOutcome) (now : List Char) : Except (List Char) (List Char) :=
  (smart_lines data cfg outcome now).map pyJoinNL

/-- Whether an `Except` carries a success value. -/
def isOkE {ε α : Type} : Except ε α → Bool
  | .ok _ => true
  | .error _ => false

/-- Modelled from the claim (Scenario C): the assisted-strategy document
for a conversation no longer than the verbatim window — metadata header
with zero summarized turns, the optional quick-context section, no
AI-summary section, every turn verbatim, and the footer. -/
def assisted_doc_without_summary (data : ParsedData) (now : List Char) :
    List (List Char) :=
  ([("# Handoff: ".toList) ++ data.name, [],
    ("**Generated:** ".toList) ++ now,
    ("**Mode:** Smart (AI-summarized)".toList),
    ("**Original Chat Period:** ".toList) ++ data.created ++ (" to ".toList) ++ data.updated,
    ("**Message Count:** ".toList) ++ natStr data.messages.length ++ (" (".toList) ++
      natStr 0 ++ (" summarized, ".toList) ++
      natStr data.messages.length ++ (" verbatim)".toList),
    ("**Original Size:** ~".toList) ++
      commaFmt (estimate_tokens ((data.messages.map (fun m => m.content.length)).sum)) ++
      (" tokens".toList), []])
  ++ (if data.summary ≠ [] then
        [("## Quick Context (Claude.ai Auto-generated)".toList), [], data.summary, []]
      else [])
  ++ [("## Recent Conversation (Verbatim)".toList), [],
      ("*Last ".toList) ++ natStr data.messages.length ++
        (" messages preserved for immediate context:*".toList), []]
  ++ (data.messages.map render_verbatim_msg).flatten
  ++ footer_lines

instance {ε α : Type} [DecidableEq ε] [DecidableEq α] : DecidableEq (Except ε α) :=
  fun x y =>
    match x, y with
    | .ok a, .ok b =>
      if h : a = b then isTrue (h ▸ rfl)
      else isFalse (fun e => h (Except.ok.inj e))
    | .error a, .error b =>
      if h : a = b then isTrue (h ▸ rfl)
      else isFalse (fun e => h (Except.error.inj e))
    | .ok _, .error _ => isFalse (fun e => Except.noConfusion e)
    | .error _, .ok _ => isFalse (fun e => Except.noConfusion e)

/-- The error text `call_claude_api` raises for each failing outcome
(empty for the success case, which raises nothing). -/
def apiErrorText : ApiOutcome → List Char
  | .success _ => []
  | .httpError code body =>
    ("API Error ".toList) ++ natStr code ++ (": ".toList) ++ body
  | .failure e => ("API call failed: ".toList) ++ e

/-!  Concrete data used by witnesses and counterexamples. -/

/-- Configuration with a configured verbatim count of 0. -/
def cfgZero : Config :=
  { smart_mode := some
      { verbatim_recent_messages := some 0, model := none, max_output_tokens := none }
    anthropic_api_key := none }

/-- A one-message conversation for the C3 counterexample. -/
def msgsOne : List Msg :=
  [{ sender := ("human".toList), content := ("hello there".toList), timestamp := [] }]

/-- Export object missing both turn-container fields. -/
def exportNoContainers : ExportData :=
  { chat_messages := none, messages := none, name := none, summary := none,
    created_at := none, updated_at := none }

/-- Export object exposing the `messages` field (empty container). -/
def exportWithMessages : ExportData :=
  { chat_messages := none, messages := some [], name := none, summary := none,
    created_at := none, updated_at := none }

/-- Export with one long message (over 100 characters) containing the `⎿`
indicator in the middle of a line. -/
def exportLongIndicator : ExportData :=
  { chat_messages := some
      [{ sender := some ("human".toList), content := none,
         text := some ((List.replicate 100 'a') ++ (" ⎿ ok".toList)),
         created_at := none }]
    messages := none, name := none, summary := none,
    created_at := none, updated_at := none }

/-- The surviving message of `exportLongIndicator`. -/
def msgLongIndicator : Msg :=
  { sender := ("human".toList)
    content := (List.replicate 100 'a') ++ (" ⎿ ok".toList)
    timestamp := [] }

/-- The parse result of `exportLongIndicator`. -/
def parsedLongIndicator : ParsedData :=
  { name := ("Unknown Chat".toList), summary := [], created := [], updated := []
    messages := [msgLongIndicator] }

/-- A clean surviving message for the C2 witness. -/
def msgClean : Msg :=
  { sender := ("human".toList)
    content := ("We adopted the new layout for the main module today.".toList)
    timestamp := ("2024-01-02 03:04:05".toList) }

/-- Export producing `msgClean`. -/
def exportClean : ExportData :=
  { chat_messages := some
      [{ sender := some ("human".toList), content := none,
         text := some ("We adopted the new layout for the main module today.".toList),
         created_at := some ("2024-01-02T03:04:05.678Z".toList) }]
    messages := none, name := some ("My Chat".toList), summary := none,
    created_at := none, updated_at := none }

/-- The parse result of `exportClean`. -/
def parsedClean : ParsedData :=
  { name := ("My Chat".toList), summary := [], created := [], updated := []
    messages := [msgClean] }

/-- A raw record with no sender field, for the C10 witness. -/
def rawNoSender : RawMsg :=
  { sender := none, content := none
    text := some ("An ordinary reply with enough length to pass the filters.".toList)
    created_at := none }

/-- The normalized message produced from `rawNoSender`. -/
def msgNoSender : Msg :=
  { sender := ("unknown".toList)
    content := ("An ordinary reply with enough length to pass the filters.".toList)
    timestamp := [] }

/-- A two-message conversation for the C5 witness. -/
def dataTwo : ParsedData :=
  { name := ("T".toList), summary := [], created := [], updated := []
    messages :=
      [{ sender := ("human".toList), content := ("first message".toList), timestamp := [] },
       { sender := ("assistant".toList), content := ("second message".toList), timestamp := [] }] }

/-- Configuration with a configured verbatim count of 1. -/
def cfgOne : Config :=
  { smart_mode := some
      { verbatim_recent_messages := some 1, model := none, max_output_tokens := none }
    anthropic_api_key := none }

/-- A two-message conversation for the C9 witness. -/
def dataSmall : ParsedData :=
  { name := ("Chat".toList), summary := [], created := [], updated := []
    messages :=
      [{ sender := ("human".toList), content := ("hi".toList), timestamp := [] },
       { sender := ("assistant".toList), content := ("hello".toList), timestamp := [] }] }

/-- The default configuration (no `smart_mode` entry). -/
def cfgDefault : Config := { smart_mode := none, anthropic_api_key := none }

/-!  Helper lemmas. -/

theorem splitNLAux_no_nl (l : List Char) (acc : List Char) (h : '\n' ∉ l) :
    splitNLAux l acc = [acc.reverse ++ l] := by
  induction l generalizing acc with
  | nil => simp [splitNLAux]
  | cons c cs ih =>
    have hc : c ≠ '\n' := fun e => h (e ▸ List.mem_cons_self c cs)
    have hcs : '\n' ∉ cs := fun m => h (List.mem_cons_of_mem _ m)
    simp [splitNLAux, hc, ih _ hcs]

theorem splitNLAux_append (l s : List Char) (acc : List Char) (h : '\n' ∉ l) :
    splitNLAux (l ++ '\n' :: s) acc = (acc.reverse ++ l) :: splitNLAux s [] := by
  induction l generalizing acc with
  | nil => simp [splitNLAux]
  | cons c cs ih =>
    have hc : c ≠ '\n' := fun e => h (e ▸ List.mem_cons_self c cs)
    have hcs : '\n' ∉ cs := fun m => h (List.mem_cons_of_mem _ m)
    simp [splitNLAux, hc, ih _ hcs]

theorem pySplitNL_joinNL (ls : List (List Char)) (hne : ls ≠ [])
    (h : ∀ l ∈ ls, '\n' ∉ l) : pySplitNL (pyJoinNL ls) = ls := by
  induction ls with
  | nil => exact absurd rfl hne
  | cons l ls ih =>
    cases ls with
    | nil =>
      simpa [pyJoinNL, pySplitNL] using splitNLAux_no_nl l [] (h l (by simp))
    | cons l' ls' =>
      have h1 : '\n' ∉ l := h l (by simp)
      rw [pyJoinNL, pySplitNL, splitNLAux_append _ _ _ h1]
      have := ih (by simp) (fun x hx => h x (List.mem_cons_of_mem _ hx))
      rw [pySplitNL] at this
      rw [this]
      simp

theorem no_nl_mem_splitNLAux (s : List Char) :
    ∀ acc, '\n' ∉ acc → ∀ l ∈ splitNLAux s acc, '\n' ∉ l := by
  induction s with
  | nil =>
    intro acc hacc l hl
    simp [splitNLAux] at hl
    subst hl
    simpa using hacc
  | cons c cs ih =>
    intro acc hacc l hl
    by_cases hc : c = '\n'
    · subst hc
      simp [splitNLAux] at hl
      rcases hl with h1 | h1
      · subst h1; simpa using hacc
      · exact ih [] (by simp) l h1
    · simp [splitNLAux, hc] at hl
      have hacc' : '\n' ∉ c :: acc := by
        intro hm
        rcases List.mem_cons.mp hm with e | m
        · exact hc e.symm
        · exact hacc m
      exact ih (c :: acc) hacc' l hl

theorem no_nl_mem_pySplitNL (s : List Char) : ∀ l ∈ pySplitNL s, '\n' ∉ l :=
  no_nl_mem_splitNLAux s [] (by simp)

theorem lineIsNoise_nil : lineIsNoise [] = false := by decide

/-- C1: the noise filter is idempotent — for every input string,
`filter_noise (filter_noise text) = filter_noise text`. -/
theorem filter_noise_idempotent (content : List Char) :
    filter_noise (filter_noise content) = filter_noise content := by
  have hmem : ∀ x ∈ (pySplitNL content).filter (fun l => !lineIsNoise l), '\n' ∉ x :=
    fun x hx => no_nl_mem_pySplitNL content x (List.mem_of_mem_filter hx)
  have hp : ∀ x ∈ (pySplitNL content).filter (fun l => !lineIsNoise l),
      (!lineIsNoise x) = true :=
    fun x hx => (List.mem_filter.mp hx).2
  unfold filter_noise
  cases h : (pySplitNL content).filter (fun l => !lineIsNoise l) with
  | nil =>
    simp [pyJoinNL, pySplitNL, splitNLAux, lineIsNoise_nil]
  | cons l tl =>
    rw [h] at hmem hp
    rw [pySplitNL_joinNL (l :: tl) (List.cons_ne_nil _ _) hmem,
        List.filter_eq_self.mpr hp]

theorem decisionAccum_eq (acc : List (List Char)) (l : List Char) :
    decisionAccum acc l
      = if decide (20 < (pyStrip l).length) && decide ((pyStrip l).length < 500) &&
          matchesDecisionMarker (pyStrip l) then acc ++ [pyStrip l] else acc := rfl

theorem foldl_decisionAccum (lines : List (List Char)) (acc : List (List Char)) :
    lines.foldl decisionAccum acc
      = acc ++ ((lines.map pyStrip).filter
          (fun l => decide (20 < l.length) && decide (l.length < 500) &&
            matchesDecisionMarker l)) := by
  induction lines generalizing acc with
  | nil => simp
  | cons l ls ih =>
    simp only [List.foldl_cons, List.map_cons, List.filter_cons]
    by_cases hc : (decide (20 < (pyStrip l).length) && decide ((pyStrip l).length < 500) &&
        matchesDecisionMarker (pyStrip l)) = true
    · rw [decisionAccum_eq, if_pos hc, ih]
      simp [hc]
    · have hcf : (decide (20 < (pyStrip l).length) && decide ((pyStrip l).length < 500) &&
          matchesDecisionMarker (pyStrip l)) = false := by
        revert hc
        cases (decide (20 < (pyStrip l).length) && decide ((pyStrip l).length < 500) &&
          matchesDecisionMarker (pyStrip l)) <;> simp
      rw [decisionAccum_eq, if_neg hc, ih]
      simp [hcf]

/-- C7: `extract_decisions` returns at most 20 entries, and its output is
exactly the first 20 stripped lines, in first-occurrence order, whose
length is strictly between 20 and 500 and which match at least one
decision-marker pattern. -/
theorem extract_decisions_spec (text : List Char) :
    (extract_decisions text).length ≤ 20
  ∧ extract_decisions text
      = (((pySplitNL text).map pyStrip).filter
          (fun l => decide (20 < l.length) && decide (l.length < 500) &&
            matchesDecisionMarker l)).take 20 := by
  constructor
  · exact List.length_take_le 20 _
  · show (List.foldl decisionAccum [] (pySplitNL text)).take 20 = _
    rw [foldl_decisionAccum]
    simp

/-- C6: `extract_file_paths` always returns a duplicate-free, lexically
sorted list whose entries all have length strictly greater than 5 and do
not start with a double slash.  Determinism is intrinsic: the embedding is
a pure function of its input. -/
theorem extract_file_paths_spec (text : List Char) :
    (extract_file_paths text).Nodup
  ∧ (extract_file_paths text).Sorted lexle
  ∧ ∀ p, p ∈ extract_file_paths text →
      5 < p.length ∧ ¬ (("//".toList) <+: p) := by
  simp only [extract_file_paths]
  refine ⟨?_, ?_, ?_⟩
  · exact ((List.perm_insertionSort lexle _).nodup_iff).mpr
      ((List.nodup_dedup _).filter _)
  · exact List.sorted_insertionSort lexle _
  · intro p hp
    have hp' := (List.mem_insertionSort lexle).mp hp
    have hmem := (List.mem_filter.mp hp').2
    simp only [Bool.and_eq_true, decide_eq_true_eq, Bool.not_eq_true'] at hmem
    refine ⟨hmem.1, fun hpre => ?_⟩
    have : ("//".toList).isPrefixOf p = true :=
      ( List.isPrefixOf_iff_prefix).mpr hpre
    rw [this] at hmem
    exact absurd hmem.2 (by simp)

/-- Witness for C6 at a concrete input containing two extractable paths. -/
theorem extract_file_paths_spec_witness :
    5 < (("/app.py".toList) : List Char).length
  ∧ ¬ (("//".toList) <+: ("/app.py".toList)) :=
  (extract_file_paths_spec ("see src/app.py".toList)).2.2
    ("/app.py".toList) (by decide)

theorem isSub_of_isPrefixOf (n h : List Char) (hp : n.isPrefixOf h = true) :
    isSub n h = true := by
  cases h with
  | nil =>
    have : n = [] := by
      cases n with
      | nil => rfl
      | cons a as => simp [List.isPrefixOf] at hp
    subst this
    rfl
  | cons c t =>
    unfold isSub
    rw [hp]
    rfl

theorem isSub_infix (n pre suf : List Char) : isSub n (pre ++ n ++ suf) = true := by
  induction pre with
  | nil =>
    apply isSub_of_isPrefixOf
    exact ( List.isPrefixOf_iff_prefix).mpr (by simp)
  | cons p ps ih =>
    show isSub n (p :: (ps ++ n ++ suf)) = true
    unfold isSub
    rw [ih]
    simp

/-- C8: a verbatim-window message longer than 8000 characters is rendered
as its first 8000 characters followed by a truncation marker that contains
the original character count; a message of at most 8000 characters is
rendered unchanged.  Both strategies render each verbatim message through
`render_verbatim_msg`, whose content line is `verbatimContent`. -/
theorem verbatim_truncation (m : Msg) :
    (m.content.length ≤ 8000 → verbatimContent m.content = m.content)
  ∧ (8000 < m.content.length →
       verbatimContent m.content
         = m.content.take 8000 ++ truncMarker m.content.length
     ∧ isSub (commaFmt m.content.length) (verbatimContent m.content) = true) := by
  constructor
  · intro h
    unfold verbatimContent
    rw [if_neg (by omega)]
  · intro h
    have he : verbatimContent m.content
        = m.content.take 8000 ++ truncMarker m.content.length := by
      unfold verbatimContent
      rw [if_pos h]
    refine ⟨he, ?_⟩
    rw [he]
    unfold truncMarker
    have := isSub_infix (commaFmt m.content.length)
      (m.content.take 8000 ++ ("\n\n*[Truncated - original was ".toList))
      (" chars]*".toList)
    simpa [List.append_assoc] using this

/-- Witness for C8: a 9000-character message is rendered as its first 8000
characters plus the marker, and the marker text contains the formatted
original count 9,000. -/
theorem verbatim_truncation_witness :
    (verbatimContent (List.replicate 9000 'a')
       = (List.replicate 9000 'a').take 8000
           ++ truncMarker ((List.replicate 9000 'a') : List Char).length
     ∧ isSub (commaFmt ((List.replicate 9000 'a') : List Char).length)
         (verbatimContent (List.replicate 9000 'a')) = true)
  ∧ commaFmt 9000 = ("9,000".toList) :=
  ⟨(verbatim_truncation
      { sender := [], content := List.replicate 9000 'a', timestamp := [] }).2
      (by show 8000 < (List.replicate 9000 'a').length
          rw [List.length_replicate]
          omega),
   by decide⟩

/-- C3 (amended): with a configured verbatim count of at least 1 the smart
strategy renders exactly the last `min vc total` turns, and the standard
strategy always renders the last `min 30 total` turns with the fixed
module default, independent of any configuration. -/
theorem verbatim_window_exact (messages : List Msg) (vc : Nat) (h : 1 ≤ vc) :
    (smart_recent messages vc).length = min vc messages.length
  ∧ smart_recent messages vc = messages.drop (messages.length - vc)
  ∧ (standard_recent messages).length = min 30 messages.length := by
  have h0 : vc ≠ 0 := by omega
  refine ⟨?_, ?_, ?_⟩
  · unfold smart_recent pyTakeLast
    rw [if_neg h0, List.length_drop]
    omega
  · unfold smart_recent pyTakeLast
    rw [if_neg h0]
  · unfold standard_recent pyTakeLast
    rw [if_neg (by omega : (30 : Nat) ≠ 0), List.length_drop]
    omega

/-- Witness for C3 (amended) at a concrete two-message conversation with
configured count 1. -/
theorem verbatim_window_exact_witness :
    (smart_recent
        [{ sender := [], content := ("a".toList), timestamp := [] },
         { sender := [], content := ("b".toList), timestamp := [] }] 1).length
      = min 1 2
  ∧ smart_recent
        [{ sender := [], content := ("a".toList), timestamp := [] },
         { sender := [], content := ("b".toList), timestamp := [] }] 1
      = List.drop 1
          [{ sender := [], content := ("a".toList), timestamp := [] },
           { sender := [], content := ("b".toList), timestamp := [] }]
  ∧ (standard_recent
        [{ sender := [], content := ("a".toList), timestamp := [] },
         { sender := [], content := ("b".toList), timestamp := [] }]).length
      = min 30 2 :=
  verbatim_window_exact
    [{ sender := [], content := ("a".toList), timestamp := [] },
     { sender := [], content := ("b".toList), timestamp := [] }] 1 (by decide)

/-- Counterexample to C3 as stated: with configured verbatim count 0 and a
one-turn conversation, the smart strategy renders 1 turn verbatim (the
Python slice `messages[-0:]` is the whole list), exceeding
`min(configured_verbatim_count, total_turn_count) = 0`. -/
theorem verbatim_window_bound_counterexample :
    cfgVerbatim cfgZero = 0
  ∧ smart_recent msgsOne (cfgVerbatim cfgZero) = msgsOne
  ∧ ¬ ((smart_recent msgsOne (cfgVerbatim cfgZero)).length
        ≤ min (cfgVerbatim cfgZero) msgsOne.length) := by decide

/-- C4: normalization fails with the `FormatError` naming the two missing
fields exactly when both turn-container fields are absent; in the error
case no messages are produced (the result carries no `ParsedData`), and
with at least one container present parsing succeeds. -/
theorem parse_missing_containers (d : ExportData) :
    (d.chat_messages = none ∧ d.messages = none →
       parse_json_export d = Except.error fmtErrMsg)
  ∧ ((d.chat_messages).isSome = true ∨ (d.messages).isSome = true →
       ∃ r, parse_json_export d = Except.ok r) := by
  constructor
  · intro hb
    simp [parse_json_export, hb]
  · intro hs
    have hb : ¬ (d.chat_messages = none ∧ d.messages = none) := by
      rintro ⟨h1, h2⟩
      rcases hs with hs | hs
      · rw [h1] at hs; exact absurd hs (by simp)
      · rw [h2] at hs; exact absurd hs (by simp)
    refine ⟨{ name := d.name.getD ("Unknown Chat".toList)
              summary := d.summary.getD []
              created := (d.created_at.getD []).take 10
              updated := (d.updated_at.getD []).take 10
              messages := (d.chat_messages.getD (d.messages.getD [])).filterMap processMsg },
            ?_⟩
    simp [parse_json_export, hb]

/-- Witness for C4: the error case at an export with neither container and
the success case at an export with a `messages` container. -/
theorem parse_missing_containers_witness :
    parse_json_export exportNoContainers = Except.error fmtErrMsg
  ∧ ∃ r, parse_json_export exportWithMessages = Except.ok r :=
  ⟨(parse_missing_containers exportNoContainers).1 ⟨rfl, rfl⟩,
   (parse_missing_containers exportWithMessages).2 (Or.inr rfl)⟩

theorem processMsg_some (raw : RawMsg) (m : Msg) (h : processMsg raw = some m) :
    m.content = filter_noise (extract_content_from_json raw)
  ∧ is_noise_message m.content = false
  ∧ m.sender = raw.sender.getD ("unknown".toList) := by
  simp only [processMsg] at h
  by_cases h1 : pyStrip (extract_content_from_json raw) = []
  · rw [if_pos h1] at h
    exact absurd h (by simp)
  · rw [if_neg h1] at h
    by_cases h2 : pyStrip (filter_noise (extract_content_from_json raw)) = []
    · rw [if_pos h2] at h
      exact absurd h (by simp)
    · rw [if_neg h2] at h
      by_cases h3 : is_noise_message (filter_noise (extract_content_from_json raw)) = true
      · rw [if_pos h3] at h
        exact absurd h (by simp)
      · rw [if_neg h3] at h
        have hm := Option.some_inj.mp h
        subst hm
        refine ⟨rfl, ?_, rfl⟩
        revert h3
        cases is_noise_message (filter_noise (extract_content_from_json raw)) <;> simp

theorem filter_noise_lines (c : List Char) :
    ∀ l ∈ pySplitNL (filter_noise c), lineIsNoise l = false := by
  have hmem : ∀ x ∈ (pySplitNL c).filter (fun l => !lineIsNoise l), '\n' ∉ x :=
    fun x hx => no_nl_mem_pySplitNL c x (List.mem_of_mem_filter hx)
  unfold filter_noise
  cases h : (pySplitNL c).filter (fun l => !lineIsNoise l) with
  | nil =>
    intro l hl
    simp [pyJoinNL, pySplitNL, splitNLAux] at hl
    subst hl
    exact lineIsNoise_nil
  | cons x tl =>
    rw [h] at hmem
    rw [pySplitNL_joinNL (x :: tl) (List.cons_ne_nil _ _) hmem]
    intro l hl
    have hl' : l ∈ (pySplitNL c).filter (fun l => !lineIsNoise l) := by
      rw [h]; exact hl
    have := (List.mem_filter.mp hl').2
    simpa using this

/-- C2 (amended): every message surviving normalization plus filtering has
no remaining line matching a line-level noise pattern; the message-level
indicator guarantee holds for messages whose stripped content is shorter
than 100 characters (the only case in which the source tests for the
indicators). -/
theorem parsed_messages_noise_free (d : ExportData) (out : ParsedData) (m : Msg)
    (hok : parse_json_export d = Except.ok out) (hm : m ∈ out.messages) :
    (∀ l, l ∈ pySplitNL m.content → lineIsNoise l = false)
  ∧ ((pyStrip m.content).length < 100 →
       ∀ ind, ind ∈ noise_indicators → isSub ind (pyStrip m.content) = false) := by
  by_cases hb : d.chat_messages = none ∧ d.messages = none
  · rw [parse_json_export, if_pos hb] at hok
    exact absurd hok (by simp)
  · rw [parse_json_export, if_neg hb] at hok
    simp only [Except.ok.injEq] at hok
    subst hok
    obtain ⟨raw, hin, hproc⟩ := List.mem_filterMap.mp hm
    obtain ⟨hc, hn, _⟩ := processMsg_some raw m hproc
    constructor
    · rw [hc]
      exact fun l hl => filter_noise_lines _ l hl
    · intro hlen ind hind
      simp only [is_noise_message] at hn
      rw [if_pos hlen] at hn
      have hall := List.any_eq_false.mp hn ind hind
      revert hall
      cases isSub ind (pyStrip m.content) <;> simp

/-- Counterexample to C2 as stated: a surviving message longer than 100
characters may retain a line containing the message-level indicator `⎿`
(the indicator test only runs for stripped content shorter than 100
characters, and no line-level pattern matches a mid-line `⎿`). -/
theorem noise_invariant_counterexample :
    parse_json_export exportLongIndicator = Except.ok parsedLongIndicator
  ∧ msgLongIndicator ∈ parsedLongIndicator.messages
  ∧ pySplitNL msgLongIndicator.content = [msgLongIndicator.content]
  ∧ isSub ("⎿".toList) msgLongIndicator.content = true := by decide

/-- Witness for C2 (amended) at a concrete clean export. -/
theorem parsed_messages_noise_free_witness :
    lineIsNoise msgClean.content = false :=
  (parsed_messages_noise_free exportClean parsedClean msgClean
      (by decide) (by decide)).1 msgClean.content (by decide)

/-- C10: a message whose raw sender is absent (defaulted to `unknown`) or
differs from `human` is rendered with the Assistant label by the shared
rendering of both strategies; the sender value is carried through
unvalidated. -/
theorem nonhuman_sender_assistant_label (raw : RawMsg) (m : Msg)
    (hp : processMsg raw = some m) (hs : raw.sender ≠ some ("human".toList)) :
    m.sender = raw.sender.getD ("unknown".toList)
  ∧ sender_label m = ("**Assistant:**".toList)
  ∧ msg_header m
      = ("### **Assistant:** (".toList) ++ m.timestamp ++ (")".toList) := by
  obtain ⟨_, _, hsender⟩ := processMsg_some raw m hp
  have hne : m.sender ≠ ("human".toList) := by
    rw [hsender]
    cases hopt : raw.sender with
    | none =>
      rw [Option.getD_none]
      decide
    | some s =>
      rw [Option.getD_some]
      intro e
      exact hs (by rw [hopt, e])
  refine ⟨hsender, ?_, ?_⟩
  · unfold sender_label
    rw [if_neg hne]
  · unfold msg_header sender_label
    rw [if_neg hne]
    rw [show ((("### ".toList) ++ ("**Assistant:**".toList)) ++ (" (".toList) : List Char)
          = ("### **Assistant:** (".toList) from by decide]

/-- Witness for C10 at a record with no sender field. -/
theorem nonhuman_sender_assistant_label_witness :
    msgNoSender.sender = rawNoSender.sender.getD ("unknown".toList)
  ∧ sender_label msgNoSender = ("**Assistant:**".toList)
  ∧ msg_header msgNoSender
      = ("### **Assistant:** (".toList) ++ msgNoSender.timestamp ++ (")".toList) :=
  nonhuman_sender_assistant_label rawNoSender msgNoSender (by decide) (by decide)

/-- C5: when the older prefix is nonempty and the summarization capability
fails (HTTP error status or any other failure such as a timeout or a
malformed response), the assisted strategy propagates the error: no
document lines and no joined document are produced, so no fallback to the
standard strategy can occur inside the run. -/
theorem smart_fails_atomically (data : ParsedData) (cfg : Config) (now : List Char)
    (outcome : ApiOutcome)
    (holder : smart_older data.messages (cfgVerbatim cfg) ≠ [])
    (hfail : ∀ t, outcome ≠ ApiOutcome.success t) :
    smart_lines data cfg outcome now = Except.error (apiErrorText outcome)
  ∧ generate_handoff_smart data cfg outcome now = Except.error (apiErrorText outcome)
  ∧ isOkE (smart_lines data cfg outcome now) = false := by
  have hE : (smart_older data.messages (cfgVerbatim cfg)).isEmpty = false := by
    cases hh : smart_older data.messages (cfgVerbatim cfg) with
    | nil => exact absurd hh holder
    | cons a l => rfl
  have hcall : smart_lines data cfg outcome now = Except.error (apiErrorText outcome) := by
    cases outcome with
    | success t => exact absurd rfl (hfail t)
    | httpError code body =>
      simp [smart_lines, hE, generate_smart_summary, call_claude_api, apiErrorText]
    | failure e =>
      simp [smart_lines, hE, generate_smart_summary, call_claude_api, apiErrorText]
  refine ⟨hcall, ?_, ?_⟩
  · rw [generate_handoff_smart, hcall]
    rfl
  · rw [hcall]
    rfl

/-- Witness for C5: a two-message conversation with verbatim count 1 and a
timed-out summarization call. -/
theorem smart_fails_atomically_witness :
    smart_lines dataTwo cfgOne (ApiOutcome.failure ("timed out".toList)) []
      = Except.error (apiErrorText (ApiOutcome.failure ("timed out".toList)))
  ∧ generate_handoff_smart dataTwo cfgOne (ApiOutcome.failure ("timed out".toList)) []
      = Except.error (apiErrorText (ApiOutcome.failure ("timed out".toList)))
  ∧ isOkE (smart_lines dataTwo cfgOne (ApiOutcome.failure ("timed out".toList)) []) = false :=
  smart_fails_atomically dataTwo cfgOne [] (ApiOutcome.failure ("timed out".toList))
    (by decide) (fun t h => ApiOutcome.noConfusion h)

/-- C9: when the conversation has no more turns than the configured
verbatim count, the older prefix is empty, the assisted strategy succeeds
for every oracle outcome (so no summarization call is issued), the
document has no AI-summary section, and the verbatim window is the whole
conversation. -/
theorem smart_small_conversation (data : ParsedData) (cfg : Config) (now : List Char)
    (h : data.messages.length ≤ cfgVerbatim cfg) :
    smart_older data.messages (cfgVerbatim cfg) = []
  ∧ smart_recent data.messages (cfgVerbatim cfg) = data.messages
  ∧ ∀ outcome, smart_lines data cfg outcome now
      = Except.ok (assisted_doc_without_summary data now) := by
  have holder : smart_older data.messages (cfgVerbatim cfg) = [] := by
    unfold smart_older
    rw [if_neg (by omega)]
  have hrec : smart_recent data.messages (cfgVerbatim cfg) = data.messages := by
    unfold smart_recent pyTakeLast
    by_cases h0 : cfgVerbatim cfg = 0
    · rw [if_pos h0]
    · rw [if_neg h0]
      have hz : data.messages.length - cfgVerbatim cfg = 0 := by omega
      rw [hz, List.drop_zero]
  refine ⟨holder, hrec, fun outcome => ?_⟩
  simp only [smart_lines, holder, hrec, List.isEmpty_nil, if_true]
  simp [assisted_doc_without_summary]

/-- Witness for C9: a two-message conversation under the default verbatim
count 30, with a failing oracle that is provably never consulted. -/
theorem smart_small_conversation_witness :
    smart_older dataSmall.messages (cfgVerbatim cfgDefault) = []
  ∧ smart_recent dataSmall.messages (cfgVerbatim cfgDefault) = dataSmall.messages
  ∧ smart_lines dataSmall cfgDefault (ApiOutcome.failure ("timeout".toList)) ("now".toList)
      = Except.ok (assisted_doc_without_summary dataSmall ("now".toList)) := by
  obtain ⟨h1, h2, h3⟩ :=
    smart_small_conversation dataSmall cfgDefault ("now".toList) (by decide)
  exact ⟨h1, h2, h3 _⟩

end Handoff
